import Mathlib

/-!
Shallow embedding of qutebrowser/utils/earlyinit.py.

The module consists of five early-bootstrap functions that are supposed to be
called in order before the rest of the application starts:
check_python_version, init_faulthandler, fix_harfbuzz, check_pyqt_core and
check_pyqt_webkit.

Modelling choices:
- The readable parts of the host process (sys.hexversion, sys.version_info,
  sys.platform, sys.argv, whether sys.stderr is None, availability of the
  PyQt modules) are collected in a PyState record.
- Each function is embedded as a pure function from PyState to a pair of
  (list of observable side effects, outcome).  Side effects (console prints,
  faulthandler calls, Qt GUI operations) are Events; the outcome is either
  ret (the function returns to its caller) or exitProcess c, modelling
  sys.exit(c).
- Console output (print to stdout and traceback.print_exc) is modelled as a
  single ordered stream of events, following the specification, which treats
  standard output and standard error together as the console reporting
  channel.
- The environment variable table os.environ is a function from variable
  names to Option String; fix_harfbuzz is the one state mutator and is
  embedded as a function from PyState to PyState.
- Message strings are transcribed from the source after textwrap.dedent and
  strip have been applied to the Python triple-quoted literals.
-/

/-- Python version information: the first three components of
sys.version_info together with the low byte of sys.hexversion (release level
and serial, for example 0xf0 for a final release). -/
structure VersionInfo where
  major : Nat
  minor : Nat
  micro : Nat
  releaseByte : Nat
  deriving DecidableEq, Repr

/-- CPython encoding of sys.hexversion: major shifted by 24 bits, minor by
16, micro by 8, plus the release byte. -/
def VersionInfo.hexversion (v : VersionInfo) : Nat :=
  ((v.major * 256 + v.minor) * 256 + v.micro) * 256 + v.releaseByte

/-- The environment variable table os.environ: a total map from variable
names to optional values. -/
def Environ : Type := String → Option String

/-- Update one environment variable, modelling an os.environ item
assignment. -/
def setEnv (e : Environ) (k v : String) : Environ :=
  fun x => if x = k then some v else e x

/-- The POSIX user signal used by faulthandler.register in the source. -/
inductive Signal where
  | SIGUSR1
  deriving DecidableEq, Repr

/-- QMessageBox icon severities used by the source (only Critical). -/
inductive Icon where
  | critical
  deriving DecidableEq, Repr

/-- Observable side effects of the early-init functions. -/
inductive Event where
  /-- Console print of a message string. -/
  | printMsg (s : String)
  /-- Console print of a blank line. -/
  | printBlankLine
  /-- Console print of the current exception traceback, via
  traceback.print_exc. -/
  | printExcTraceback
  /-- Call to faulthandler.enable. -/
  | enableFaulthandler
  /-- Call to faulthandler.register with the given signal. -/
  | registerFaulthandler (sig : Signal)
  /-- Construction of the temporary QApplication from sys.argv. -/
  | createQApplication (argv : List String)
  /-- Construction of the QMessageBox with icon, title and text. -/
  | constructMessageBox (icon : Icon) (title : String) (text : String)
  /-- Auto-sizing of the dialog: msgbox.resize to its size hint. -/
  | resizeMessageBoxToSizeHint
  /-- Modal execution of the dialog, blocking until dismissed. -/
  | execMessageBoxModal
  /-- Call to app.quit, terminating the temporary GUI application
  context. -/
  | quitQApplication
  deriving DecidableEq, Repr

/-- Outcome of one early-init function: fall through to the caller, or
terminate the process via sys.exit with the given code. -/
inductive Outcome where
  | ret
  | exitProcess (code : Nat)
  deriving DecidableEq, Repr

/-- Read-only snapshot of the host process, as consulted by earlyinit. -/
structure PyState where
  /-- Interpreter version, backing sys.version_info and sys.hexversion. -/
  version : VersionInfo
  /-- Platform identifier sys.platform. -/
  platform : String
  /-- Command-line arguments sys.argv. -/
  argv : List String
  /-- Whether sys.stderr is None (true when run for example under
  pythonw.exe). -/
  stderrIsNone : Bool
  /-- Whether the faulthandler module has a register attribute. -/
  faulthandlerHasRegister : Bool
  /-- Environment variable table os.environ. -/
  environ : Environ
  /-- Whether importing PyQt5.QtCore succeeds. -/
  pyqtCoreAvailable : Bool
  /-- Whether importing PyQt5.QtWebKit succeeds. -/
  pyqtWebKitAvailable : Bool

/-- Whether the first character list begins the second. -/
def isPrefixListChar : List Char → List Char → Bool
  | [], _ => true
  | _ :: _, [] => false
  | a :: as, b :: bs => a == b && isPrefixListChar as bs

/-- Substring occurrence on character lists. -/
def isSubstrList (n : List Char) : List Char → Bool
  | [] => n.isEmpty
  | c :: t => isPrefixListChar n (c :: t) || isSubstrList n t

/-- Python substring containment: needle in hay. -/
def strContains (hay needle : String) : Bool :=
  isSubstrList needle.data hay.data

/-- Python s.startswith(p). -/
def strStartsWith (s p : String) : Bool :=
  isPrefixListChar p.data s.data

/-- The dotted version string: the first three components of
sys.version_info converted to strings and joined with dots. -/
def versionDotString (v : VersionInfo) : String :=
  toString v.major ++ "." ++ toString v.minor ++ "." ++ toString v.micro

/-- The message printed by check_python_version on failure (the two adjacent
string literals of the source, concatenated, with the dotted version
substituted for the format placeholder). -/
def pythonVersionErrMsg (v : VersionInfo) : String :=
  "Fatal error: At least Python 3.3 is required to run qutebrowser, but "
    ++ versionDotString v ++ " is installed!"

/-- Embedding of check_python_version: if sys.hexversion < 0x03030000, print
the error message and exit with code 1; otherwise fall through silently. -/
def check_python_version (st : PyState) : List Event × Outcome :=
  if st.version.hexversion < 0x03030000 then
    ([Event.printMsg (pythonVersionErrMsg st.version)], Outcome.exitProcess 1)
  else
    ([], Outcome.ret)

/-- Embedding of init_faulthandler: the source reads "if sys.stderr is not
None: return", so it returns doing nothing when stderr is available, and
otherwise calls faulthandler.enable and, when the register attribute exists,
faulthandler.register(SIGUSR1).  It never exits. -/
def init_faulthandler (st : PyState) : List Event × Outcome :=
  if st.stderrIsNone = false then
    ([], Outcome.ret)
  else
    (Event.enableFaulthandler ::
       (if st.faulthandlerHasRegister then
          [Event.registerFaulthandler Signal.SIGUSR1]
        else []),
     Outcome.ret)

/-- Embedding of fix_harfbuzz: on platforms whose identifier starts with
"linux", set the environment variable QT_HARFBUZZ to "old"; otherwise do
nothing. -/
def fix_harfbuzz (st : PyState) : PyState :=
  if strStartsWith st.platform "linux" then
    { st with environ := setEnv st.environ "QT_HARFBUZZ" "old" }
  else
    st

/-- The remediation message of check_pyqt_core: the dedented and stripped
triple-quoted literal of the source. -/
def pyqtCoreErrMsg : String :=
  "Fatal error: PyQt5 is required to run qutebrowser but could not\n"
    ++ "be imported! Maybe it\x27s not installed?\n"
    ++ "\n"
    ++ "On Debian:\n"
    ++ "    apt-get install python3-pyqt5 python3-pyqt5.qtwebkit\n"
    ++ "\n"
    ++ "On Archlinux:\n"
    ++ "    pacman -S python-pyqt5 qt5-webkit\n"
    ++ "    or install the qutebrowser package from AUR\n"
    ++ "\n"
    ++ "On Windows:\n"
    ++ "    Use the installer by Riverbank computing or the standalone\n"
    ++ "    qutebrowser exe.\n"
    ++ "\n"
    ++ "    http://www.riverbankcomputing.co.uk/software/pyqt/download5\n"
    ++ "\n"
    ++ "For other distributions:\n"
    ++ "    Check your package manager for similiarly named packages."

/-- Embedding of check_pyqt_core: if importing PyQt5.QtCore fails, print the
remediation message, then (when sys.argv has an element equal to "--debug")
a blank line and the exception traceback, then exit with code 1.  On success
fall through silently. -/
def check_pyqt_core (st : PyState) : List Event × Outcome :=
  if st.pyqtCoreAvailable then
    ([], Outcome.ret)
  else
    (Event.printMsg pyqtCoreErrMsg ::
       (if st.argv.contains "--debug" then
          [Event.printBlankLine, Event.printExcTraceback]
        else []),
     Outcome.exitProcess 1)

/-- The dialog text of check_pyqt_webkit: the dedented and stripped
triple-quoted literal of the source. -/
def pyqtWebKitErrMsg : String :=
  "Fatal error: QtWebKit is required to run qutebrowser but could not\n"
    ++ "be imported! Maybe it\x27s not installed?\n"
    ++ "\n"
    ++ "On Debian:\n"
    ++ "    apt-get install python3-pyqt5.qtwebkit\n"
    ++ "\n"
    ++ "On Archlinux:\n"
    ++ "    pacman -S qt5-webkit\n"
    ++ "\n"
    ++ "For other distributions:\n"
    ++ "    Check your package manager for similiarly named packages."

/-- Embedding of check_pyqt_webkit: if importing PyQt5.QtWebKit fails,
construct a QApplication and a critical QMessageBox, print the debug
traceback when sys.argv has an element equal to "--debug", auto-size and
modally execute the dialog, then quit the QApplication.  Note the source
contains no sys.exit on this path: the function falls through to its
caller. -/
def check_pyqt_webkit (st : PyState) : List Event × Outcome :=
  if st.pyqtWebKitAvailable then
    ([], Outcome.ret)
  else
    (Event.createQApplication st.argv ::
       Event.constructMessageBox Icon.critical "qutebrowser: Fatal error!"
         pyqtWebKitErrMsg ::
       ((if st.argv.contains "--debug" then
           [Event.printBlankLine, Event.printExcTraceback]
         else []) ++
        [Event.resizeMessageBoxToSizeHint, Event.execMessageBoxModal,
         Event.quitQApplication]),
     Outcome.ret)

/-- Events that construct or operate GUI (Qt) objects, as opposed to console
output or faulthandler calls. -/
def Event.isGui : Event → Bool
  | Event.createQApplication _ => true
  | Event.constructMessageBox _ _ _ => true
  | Event.resizeMessageBoxToSizeHint => true
  | Event.execMessageBoxModal => true
  | Event.quitQApplication => true
  | _ => false

/-- Events that are not GUI operations (console output and faulthandler
calls). -/
def Event.isConsole (e : Event) : Bool :=
  !e.isGui

/-- Whether one argv element differs from the exact debug flag token. -/
def isNotDebugToken (a : String) : Bool :=
  a != "--debug"

/-- Version order against the fixed minimum 3.3.0: lexicographic comparison
of (major, minor, micro) with (3, 3, 0), strictly below. -/
def versionBelowMin (v : VersionInfo) : Prop :=
  v.major < 3 ∨ (v.major = 3 ∧ v.minor < 3)

instance (v : VersionInfo) : Decidable (versionBelowMin v) := by
  unfold versionBelowMin; infer_instance

/-- An empty environment table, used for concrete test states. -/
def emptyEnv : Environ := fun _ => none

/-- A concrete host state in which every gate passes: Python 3.4.0 final,
Linux, both PyQt modules available, stderr attached. -/
def okState : PyState :=
  { version := ⟨3, 4, 0, 0xf0⟩
    platform := "linux"
    argv := ["qutebrowser"]
    stderrIsNone := false
    faulthandlerHasRegister := true
    environ := emptyEnv
    pyqtCoreAvailable := true
    pyqtWebKitAvailable := true }

/-- The passing state with interpreter version 3.2.0 final. -/
def lowVersionState : PyState :=
  { okState with version := ⟨3, 2, 0, 0xf0⟩ }

/-- The passing state but with sys.stderr equal to None. -/
def noStderrState : PyState :=
  { okState with stderrIsNone := true }

/-- The passing state but with PyQt5.QtCore unavailable. -/
def noCoreState : PyState :=
  { okState with pyqtCoreAvailable := false }

/-- The passing state but with PyQt5.QtWebKit unavailable. -/
def noWebKitState : PyState :=
  { okState with pyqtWebKitAvailable := false }

/-- A state with both PyQt modules unavailable and the debug flag present as
a whole argv element. -/
def debugNoCoreState : PyState :=
  { okState with pyqtCoreAvailable := false, pyqtWebKitAvailable := false,
                 argv := ["qutebrowser", "--debug"] }

/-- A state with both PyQt modules unavailable where the debug token occurs
only as a proper substring of an argument. -/
def substrArgvState : PyState :=
  { okState with pyqtCoreAvailable := false, pyqtWebKitAvailable := false,
                 argv := ["--debug-flag"] }

/-- The passing state but on a non-Linux platform. -/
def nonLinuxState : PyState :=
  { okState with platform := "win32" }

/-- A Linux state whose environment already binds QT_HARFBUZZ to another
value. -/
def linuxPreSetState : PyState :=
  { okState with environ := fun k => if k = "QT_HARFBUZZ" then some "new" else none }

/-- With byte-bounded minor, micro and release components, the hexversion
comparison against 0x03030000 coincides with the lexicographic version order
against 3.3.0. -/
theorem hexversion_lt_min_iff (v : VersionInfo) (h2 : v.minor < 256)
    (h3 : v.micro < 256) (h4 : v.releaseByte < 256) :
    v.hexversion < 0x03030000 ↔ versionBelowMin v := by
  unfold VersionInfo.hexversion versionBelowMin
  omega

/-- Setting the same environment variable to the same value twice equals
setting it once. -/
theorem setEnv_idem (e : Environ) (k v : String) :
    setEnv (setEnv e k v) k v = setEnv e k v := by
  funext x
  unfold setEnv
  by_cases h : x = k <;> simp [h]

/-- Evaluation of check_pyqt_core on the failure branch. -/
theorem check_pyqt_core_eq_of_missing (st : PyState)
    (h : st.pyqtCoreAvailable = false) :
    check_pyqt_core st =
      (Event.printMsg pyqtCoreErrMsg ::
         (if st.argv.contains "--debug" then
            [Event.printBlankLine, Event.printExcTraceback]
          else []),
       Outcome.exitProcess 1) := by
  unfold check_pyqt_core
  rw [h]
  rfl

/-- Evaluation of check_pyqt_webkit on the failure branch. -/
theorem check_pyqt_webkit_eq_of_missing (st : PyState)
    (h : st.pyqtWebKitAvailable = false) :
    check_pyqt_webkit st =
      (Event.createQApplication st.argv ::
         Event.constructMessageBox Icon.critical "qutebrowser: Fatal error!"
           pyqtWebKitErrMsg ::
         ((if st.argv.contains "--debug" then
             [Event.printBlankLine, Event.printExcTraceback]
           else []) ++
          [Event.resizeMessageBoxToSizeHint, Event.execMessageBoxModal,
           Event.quitQApplication]),
       Outcome.ret) := by
  unfold check_pyqt_webkit
  rw [h]
  rfl

/-- Claim C5: for every runtime version strictly below the fixed minimum
3.3.0 (with byte-bounded components), check_python_version prints the
failure message and exits with the fixed code 1; for every version at or
above the minimum it falls through with no output and no exit. -/
theorem check_python_version_gate (st : PyState)
    (hmi : st.version.minor < 256) (hmc : st.version.micro < 256)
    (hrb : st.version.releaseByte < 256) :
    (versionBelowMin st.version →
      check_python_version st =
        ([Event.printMsg (pythonVersionErrMsg st.version)],
         Outcome.exitProcess 1)) ∧
    (¬ versionBelowMin st.version →
      check_python_version st = ([], Outcome.ret)) := by
  have key : st.version.hexversion < 0x03030000 ↔ versionBelowMin st.version :=
    hexversion_lt_min_iff st.version hmi hmc hrb
  constructor
  · intro h
    unfold check_python_version
    rw [if_pos (key.mpr h)]
  · intro h
    unfold check_python_version
    rw [if_neg (fun hlt => h (key.mp hlt))]

/-- Witness for claim C5: at version 3.2.0 the gate prints and exits with
code 1, and at version 3.4.0 it falls through silently. -/
theorem check_python_version_gate_w :
    check_python_version lowVersionState =
      ([Event.printMsg (pythonVersionErrMsg lowVersionState.version)],
       Outcome.exitProcess 1) ∧
    check_python_version okState = ([], Outcome.ret) :=
  ⟨(check_python_version_gate lowVersionState (by decide) (by decide)
      (by decide)).1 (by decide),
   (check_python_version_gate okState (by decide) (by decide)
      (by decide)).2 (by decide)⟩

/-- Claim C7, counterexample: at runtime version 3.2.0 the version gate does
print and exit with code 1, but its output message does not contain the
string "3.3.0" (the message names the minimum as Python 3.3). -/
theorem version_scenario_A_lacks_330 :
    check_python_version lowVersionState =
      ([Event.printMsg (pythonVersionErrMsg lowVersionState.version)],
       Outcome.exitProcess 1) ∧
    strContains (pythonVersionErrMsg lowVersionState.version) "3.3.0" = false := by
  refine ⟨rfl, by decide⟩

/-- Claim C7 as amended: at runtime version 3.2.0 the gate output contains
both "3.2.0" and "3.3" (not "3.3.0"), and the process exits with the fixed
failure code 1. -/
theorem version_scenario_A_amended :
    (check_python_version lowVersionState).1 =
      [Event.printMsg (pythonVersionErrMsg lowVersionState.version)] ∧
    strContains (pythonVersionErrMsg lowVersionState.version) "3.2.0" = true ∧
    strContains (pythonVersionErrMsg lowVersionState.version) "3.3" = true ∧
    (check_python_version lowVersionState).2 = Outcome.exitProcess 1 := by
  refine ⟨rfl, by decide, by decide, rfl⟩

/-- Claim C2, bug evidence: when sys.stderr is None the source enables the
faulthandler and registers SIGUSR1 (side effects occur), and when stderr is
available it does nothing; the claim (and the comment inside the source)
require exactly the opposite polarity.  The function never exits either
way. -/
theorem init_faulthandler_inverted :
    init_faulthandler noStderrState =
      ([Event.enableFaulthandler, Event.registerFaulthandler Signal.SIGUSR1],
       Outcome.ret) ∧
    init_faulthandler okState = ([], Outcome.ret) :=
  ⟨rfl, rfl⟩

/-- Claim C4: fix_harfbuzz sets QT_HARFBUZZ to "old" when the platform
identifier starts with "linux" (touching no other variable), and on every
other platform it leaves the state, in particular the environment table,
unchanged. -/
theorem fix_harfbuzz_spec (st : PyState) :
    (strStartsWith st.platform "linux" = true →
      (fix_harfbuzz st).environ "QT_HARFBUZZ" = some "old" ∧
      ∀ k, k ≠ "QT_HARFBUZZ" → (fix_harfbuzz st).environ k = st.environ k) ∧
    (strStartsWith st.platform "linux" = false → fix_harfbuzz st = st) := by
  constructor
  · intro h
    constructor
    · simp [fix_harfbuzz, h, setEnv]
    · intro k hk
      simp [fix_harfbuzz, h, setEnv, hk]
  · intro h
    simp [fix_harfbuzz, h]

/-- Witness for claim C4: on the Linux state the variable is set to "old",
and on the win32 state the whole state is unchanged. -/
theorem fix_harfbuzz_spec_w :
    (fix_harfbuzz okState).environ "QT_HARFBUZZ" = some "old" ∧
    fix_harfbuzz nonLinuxState = nonLinuxState :=
  ⟨((fix_harfbuzz_spec okState).1 (by decide)).1,
   (fix_harfbuzz_spec nonLinuxState).2 (by decide)⟩

/-- Claim C9: fix_harfbuzz is idempotent on every state, and on the Linux
platform family it unconditionally makes QT_HARFBUZZ equal to "old",
overwriting any pre-existing value. -/
theorem fix_harfbuzz_idempotent (st : PyState) :
    fix_harfbuzz (fix_harfbuzz st) = fix_harfbuzz st ∧
    (strStartsWith st.platform "linux" = true →
      (fix_harfbuzz st).environ "QT_HARFBUZZ" = some "old") := by
  constructor
  · cases h : strStartsWith st.platform "linux" with
    | false => simp [fix_harfbuzz, h]
    | true => simp [fix_harfbuzz, h, setEnv_idem]
  · intro h
    simp [fix_harfbuzz, h, setEnv]

/-- Witness for claim C9: on a Linux state whose environment already binds
QT_HARFBUZZ to "new", applying fix_harfbuzz twice equals applying it once,
and the value is overwritten with "old". -/
theorem fix_harfbuzz_idempotent_w :
    fix_harfbuzz (fix_harfbuzz linuxPreSetState) = fix_harfbuzz linuxPreSetState ∧
    (fix_harfbuzz linuxPreSetState).environ "QT_HARFBUZZ" = some "old" :=
  ⟨(fix_harfbuzz_idempotent linuxPreSetState).1,
   (fix_harfbuzz_idempotent linuxPreSetState).2 (by decide)⟩

/-- Claim C6: whenever PyQt5.QtCore is unavailable, check_pyqt_core prints
the remediation message, exits with the fixed code 1, and performs only
console events, never a GUI application or dialog construction. -/
theorem check_pyqt_core_missing (st : PyState)
    (h : st.pyqtCoreAvailable = false) :
    Event.printMsg pyqtCoreErrMsg ∈ (check_pyqt_core st).1 ∧
    (check_pyqt_core st).2 = Outcome.exitProcess 1 ∧
    (check_pyqt_core st).1.all Event.isConsole = true := by
  rw [check_pyqt_core_eq_of_missing st h]
  cases hd : st.argv.contains "--debug" <;>
    exact ⟨List.Mem.head _, rfl, rfl⟩

/-- Witness for claim C6 at the concrete state with QtCore unavailable. -/
theorem check_pyqt_core_missing_w :
    Event.printMsg pyqtCoreErrMsg ∈ (check_pyqt_core noCoreState).1 ∧
    (check_pyqt_core noCoreState).2 = Outcome.exitProcess 1 ∧
    (check_pyqt_core noCoreState).1.all Event.isConsole = true :=
  check_pyqt_core_missing noCoreState (by decide)

/-- Claim C8: with the debug flag present in argv and PyQt5.QtCore
unavailable, the console output of check_pyqt_core is exactly the
remediation message followed by a blank line and the exception traceback,
and the process exits with code 1. -/
theorem check_pyqt_core_debug_trace (st : PyState)
    (hc : st.pyqtCoreAvailable = false)
    (hd : st.argv.contains "--debug" = true) :
    (check_pyqt_core st).1 =
      [Event.printMsg pyqtCoreErrMsg, Event.printBlankLine,
       Event.printExcTraceback] ∧
    (check_pyqt_core st).2 = Outcome.exitProcess 1 := by
  rw [check_pyqt_core_eq_of_missing st hc, hd]
  exact ⟨rfl, rfl⟩

/-- Witness for claim C8 at the concrete state with QtCore unavailable and
"--debug" among the arguments. -/
theorem check_pyqt_core_debug_trace_w :
    (check_pyqt_core debugNoCoreState).1 =
      [Event.printMsg pyqtCoreErrMsg, Event.printBlankLine,
       Event.printExcTraceback] ∧
    (check_pyqt_core debugNoCoreState).2 = Outcome.exitProcess 1 :=
  check_pyqt_core_debug_trace debugNoCoreState (by decide) (by decide)

/-- Claim C1, bug evidence: when PyQt5.QtWebKit is unavailable the source
constructs and modally executes the critical dialog and quits the temporary
QApplication, but the outcome is ret: the function returns control to its
caller and never calls sys.exit, contradicting the claimed termination with
the fixed failure code. -/
theorem check_pyqt_webkit_dialog_no_exit :
    Event.constructMessageBox Icon.critical "qutebrowser: Fatal error!"
        pyqtWebKitErrMsg ∈ (check_pyqt_webkit noWebKitState).1 ∧
    Event.execMessageBoxModal ∈ (check_pyqt_webkit noWebKitState).1 ∧
    Event.quitQApplication ∈ (check_pyqt_webkit noWebKitState).1 ∧
    (check_pyqt_webkit noWebKitState).2 = Outcome.ret :=
  ⟨List.Mem.tail _ (List.Mem.head _),
   List.Mem.tail _ (List.Mem.tail _ (List.Mem.tail _ (List.Mem.head _))),
   List.Mem.tail _ (List.Mem.tail _ (List.Mem.tail _ (List.Mem.tail _
     (List.Mem.head _)))),
   rfl⟩

/-- Claim C3, bug evidence: the version gate and the core gate exit with the
single fixed code 1 on failure, and all steps fall through silently on
success, but the extension gate falls through (outcome ret) even on failure
instead of exiting with the fixed code. -/
theorem gate_exit_codes :
    (check_python_version lowVersionState).2 = Outcome.exitProcess 1 ∧
    (check_pyqt_core noCoreState).2 = Outcome.exitProcess 1 ∧
    (check_pyqt_webkit noWebKitState).2 = Outcome.ret ∧
    check_python_version okState = ([], Outcome.ret) ∧
    init_faulthandler okState = ([], Outcome.ret) ∧
    check_pyqt_core okState = ([], Outcome.ret) ∧
    check_pyqt_webkit okState = ([], Outcome.ret) :=
  ⟨rfl, rfl, rfl, rfl, rfl, rfl, rfl⟩

/-- Claim C10: on the failure paths of both PyQt gates, the exception
traceback is printed exactly when "--debug" occurs as a whole element of
argv; when every argv element differs from the exact token (for example when
it occurs only as a substring of another argument), no traceback is
printed. -/
theorem debug_flag_exact_membership (st : PyState)
    (hc : st.pyqtCoreAvailable = false)
    (hw : st.pyqtWebKitAvailable = false) :
    (Event.printExcTraceback ∈ (check_pyqt_core st).1 ↔ "--debug" ∈ st.argv) ∧
    (Event.printExcTraceback ∈ (check_pyqt_webkit st).1 ↔ "--debug" ∈ st.argv) ∧
    (st.argv.all isNotDebugToken = true →
      Event.printExcTraceback ∉ (check_pyqt_core st).1 ∧
      Event.printExcTraceback ∉ (check_pyqt_webkit st).1) := by
  have hcore : Event.printExcTraceback ∈ (check_pyqt_core st).1 ↔
      "--debug" ∈ st.argv := by
    rw [check_pyqt_core_eq_of_missing st hc]
    cases hd : st.argv.contains "--debug" with
    | false =>
      have hnm : "--debug" ∉ st.argv := by
        intro hm
        have h2 : st.argv.contains "--debug" = true := List.elem_iff.mpr hm
        rw [hd] at h2
        exact Bool.false_ne_true h2
      simp [hnm]
    | true => simp [List.elem_iff.mp hd]
  have hwk : Event.printExcTraceback ∈ (check_pyqt_webkit st).1 ↔
      "--debug" ∈ st.argv := by
    rw [check_pyqt_webkit_eq_of_missing st hw]
    cases hd : st.argv.contains "--debug" with
    | false =>
      have hnm : "--debug" ∉ st.argv := by
        intro hm
        have h2 : st.argv.contains "--debug" = true := List.elem_iff.mpr hm
        rw [hd] at h2
        exact Bool.false_ne_true h2
      simp [hnm]
    | true => simp [List.elem_iff.mp hd]
  refine ⟨hcore, hwk, ?_⟩
  intro hall
  have hnot : "--debug" ∉ st.argv := by
    intro hmm
    have hx := List.all_eq_true.mp hall _ hmm
    simp [isNotDebugToken] at hx
  exact ⟨fun hx => hnot (hcore.mp hx), fun hx => hnot (hwk.mp hx)⟩

/-- Witness for claim C10: with "--debug" present as a whole element the
traceback membership holds, and with argv consisting only of "--debug-flag"
no traceback is printed by either gate. -/
theorem debug_flag_exact_membership_w :
    (Event.printExcTraceback ∈ (check_pyqt_core debugNoCoreState).1 ↔
      "--debug" ∈ debugNoCoreState.argv) ∧
    Event.printExcTraceback ∉ (check_pyqt_core substrArgvState).1 ∧
    Event.printExcTraceback ∉ (check_pyqt_webkit substrArgvState).1 :=
  ⟨(debug_flag_exact_membership debugNoCoreState (by decide) (by decide)).1,
   ((debug_flag_exact_membership substrArgvState (by decide)
      (by decide)).2.2 (by decide)).1,
   ((debug_flag_exact_membership substrArgvState (by decide)
      (by decide)).2.2 (by decide)).2⟩
